import Mathlib

/-!
Verification of the Event Normalization & Calendar Serialization Engine
(`generate_ics` in `calendar_utils.py`).

The embedding models the function's observable output: the ICS document
string it builds (file writing and console printing are boundary concerns).
Python's dynamic values for the event fields are modelled by `PyVal`
(a JSON-style null or a string); per-event skips, fatal exceptions
(TypeError on bad input shape, AttributeError from `.strip()` on None,
pytz's UnknownTimeZoneError, OverflowError from date arithmetic) are made
explicit in an `Except` result.
-/

namespace CalendarEventExtractor

/-- A loosely-typed Python value occurring in an event field: JSON null
(`None`) or a string.  `str()` of these is `pystr`; truthiness is `truthy`. -/
inductive PyVal where
  | none
  | str (s : String)
deriving DecidableEq, Repr

/-- Python `str()` rendering of a `PyVal` (as used by f-strings and the
`str(...)` casts in the source). -/
def pystr : PyVal → String
  | .none => "None"
  | .str s => s

/-- Python truthiness of a `PyVal`: `None` and `""` are falsy. -/
def truthy : PyVal → Bool
  | .none => false
  | .str s => s ≠ ""

/-- Python `a or b` over an optional field lookup: `d.get(k)` yields `None`
when the key is absent, and `or` keeps the left value only when truthy. -/
def pyOr (a : Option PyVal) (b : PyVal) : PyVal :=
  match a with
  | some v => if truthy v then v else b
  | none => b

/-- ASCII whitespace stripped by Python's `str.strip()` (space, tab,
newline, carriage return, vertical tab, form feed). -/
def isPySpace (c : Char) : Bool :=
  c = ' ' ∨ c = '\t' ∨ c = '\n' ∨ c = '\r' ∨ c = '\x0b' ∨ c = '\x0c'

/-- `str.strip()` on a string: drop whitespace at both ends. -/
def stripStr (s : String) : String :=
  ⟨(((s.data.dropWhile isPySpace).reverse.dropWhile isPySpace).reverse)⟩

/-- ASCII `str.lower()` of one character. -/
def lowerChar (c : Char) : Char :=
  if 65 ≤ c.toNat ∧ c.toNat ≤ 90 then Char.ofNat (c.toNat + 32) else c

/-- ASCII `str.upper()` of one character. -/
def upperChar (c : Char) : Char :=
  if 97 ≤ c.toNat ∧ c.toNat ≤ 122 then Char.ofNat (c.toNat - 32) else c

/-- `str.lower()` on a string (ASCII range, as exercised by the source's
sentinel comparisons). -/
def lowerStr (s : String) : String := ⟨s.data.map lowerChar⟩

/-- `str.upper()` on a string (ASCII range). -/
def upperStr (s : String) : String := ⟨s.data.map upperChar⟩

/-- `.strip()` called on a dynamic value, as in
`(event.get("end_date") or start_date).strip()`: on `None` this raises
AttributeError (`'NoneType' object has no attribute 'strip'`). -/
inductive StripResult where
  | ok (s : String)
  | attributeError
deriving DecidableEq, Repr

def pyStrip : PyVal → StripResult
  | .str s => .ok (stripStr s)
  | .none => .attributeError

/-- The optional `recurrence` sub-dictionary of an event (modelling a
truthy dict; an absent key, `None`, or an empty dict all make the source's
`if recurrence:` guard fail and are modelled as `Option.none` at the
descriptor level).  `interval` and `count` are JSON integers. -/
structure Recurrence where
  frequency : Option PyVal := none
  interval : Option Int := none
  count : Option Int := none
deriving DecidableEq, Repr

/-- One event dictionary as consumed by `generate_ics`: each field is
`Option`al (absent key) and, when present, a `PyVal` (null or string). -/
structure EventDescriptor where
  summary : Option PyVal := none
  start_date : Option PyVal := none
  end_date : Option PyVal := none
  start_time : Option PyVal := none
  end_time : Option PyVal := none
  timezone : Option PyVal := none
  location : Option PyVal := none
  description : Option PyVal := none
  recurrence : Option Recurrence := none
deriving DecidableEq, Repr

/-- The `events` argument of `generate_ics`: a list of event dicts, a dict
whose `"events"` key (when present) holds some value, or any other Python
value. -/
inductive InputVal where
  | listVal (es : List EventDescriptor)
  | dictVal (eventsField : Option InputVal)
  | otherVal

/-- Exceptions that escape `generate_ics` (fatal: no document produced). -/
inductive GenError where
  | typeError
  | attributeError
  | unknownTimeZone (tz : String)
  | overflowError
deriving DecidableEq, Repr

/-- Outcome for a single event: skipped with a printed diagnostic naming
the event's summary (missing start date / invalid date format), or a
rendered VEVENT block. -/
inductive EventResult where
  | skippedMissingStart (summary : String)
  | skippedInvalidDate (summary : String)
  | block (text : String)
deriving DecidableEq, Repr

/-! ### Date and time parsing (`datetime.strptime`) -/

structure Date where
  year : Nat
  month : Nat
  day : Nat
deriving DecidableEq, Repr

structure Time where
  hour : Nat
  minute : Nat
deriving DecidableEq, Repr

def isAsciiDigit (c : Char) : Bool := 48 ≤ c.toNat ∧ c.toNat ≤ 57

/-- Numeric value of a nonempty all-digit character list. -/
def digitsVal (cs : List Char) : Option Nat :=
  if cs ≠ [] ∧ cs.all isAsciiDigit then
    some (cs.foldl (fun n c => n * 10 + (c.toNat - 48)) 0)
  else
    Option.none

/-- Split a character list at every occurrence of `sep`. -/
def splitChar (sep : Char) : List Char → List (List Char)
  | [] => [[]]
  | c :: rest =>
    match splitChar sep rest with
    | h :: t => if c = sep then [] :: h :: t else (c :: h) :: t
    | [] => if c = sep then [[], []] else [[c]]

def isLeapYear (y : Nat) : Bool :=
  y % 4 = 0 ∧ (y % 100 ≠ 0 ∨ y % 400 = 0)

def daysInMonth (y m : Nat) : Nat :=
  if m = 2 then (if isLeapYear y then 29 else 28)
  else if m = 4 ∨ m = 6 ∨ m = 9 ∨ m = 11 then 30
  else 31

/-- `datetime.strptime(s, "%Y-%m-%d")`: exactly four year digits, one or
two digits for month and day, whole string consumed, ranges validated by
the `datetime` constructor (year ≥ 1, month 1–12, day within the month). -/
def parseDate (s : String) : Option Date :=
  match splitChar '-' s.data with
  | [ys, ms, ds] =>
    match digitsVal ys, digitsVal ms, digitsVal ds with
    | some y, some m, some d =>
      if ys.length = 4 ∧ ms.length ≤ 2 ∧ ds.length ≤ 2 ∧
          1 ≤ y ∧ 1 ≤ m ∧ m ≤ 12 ∧ 1 ≤ d ∧ d ≤ daysInMonth y m then
        some ⟨y, m, d⟩
      else
        Option.none
    | _, _, _ => Option.none
  | _ => Option.none

/-- The `%H:%M` tail of `strptime(s, "%Y-%m-%d %H:%M")`: one or two digits
each, hour 0–23, minute 0–59. -/
def parseTimeHM (s : String) : Option Time :=
  match splitChar ':' s.data with
  | [hs, ms] =>
    match digitsVal hs, digitsVal ms with
    | some h, some mi =>
      if hs.length ≤ 2 ∧ ms.length ≤ 2 ∧ h ≤ 23 ∧ mi ≤ 59 then
        some ⟨h, mi⟩
      else
        Option.none
    | _, _ => Option.none
  | _ => Option.none

/-- `datetime.strptime(s, "%Y-%m-%d %H:%M")`: date part, at least one
whitespace character (the format's blank matches a whitespace run), time
part, nothing left over. -/
def parseDateTime (s : String) : Option (Date × Time) :=
  let cs := s.data
  let datePart := cs.takeWhile (fun c => !isPySpace c)
  let rest := cs.dropWhile (fun c => !isPySpace c)
  let ws := rest.takeWhile isPySpace
  let timePart := rest.dropWhile isPySpace
  if ws.length = 0 then Option.none
  else
    match parseDate ⟨datePart⟩, parseTimeHM ⟨timePart⟩ with
    | some d, some t => some (d, t)
    | _, _ => Option.none

/-! ### Formatting (`strftime`) -/

/-- Zero-pad a number to `w` digits (as `%Y`, `%m`, `%d`, `%H`, `%M`, `%S`
render within the ranges produced here). -/
def padNum (w n : Nat) : String :=
  let s := toString n
  ⟨List.replicate (w - s.length) '0'⟩ ++ s

/-- `date.strftime("%Y%m%d")`. -/
def fmtDate (d : Date) : String :=
  padNum 4 d.year ++ padNum 2 d.month ++ padNum 2 d.day

/-- `datetime.strftime("%Y%m%dT%H%M%S")` of a localized timestamp:
`pytz`'s `localize` keeps the parsed wall-clock fields, and `%H:%M`
parsing leaves seconds at zero. -/
def fmtDateTime (d : Date) (t : Time) : String :=
  fmtDate d ++ "T" ++ padNum 2 t.hour ++ padNum 2 t.minute ++ "00"

/-- `date + timedelta(days=1)` (Gregorian). -/
def nextDay (d : Date) : Date :=
  if d.day < daysInMonth d.year d.month then ⟨d.year, d.month, d.day + 1⟩
  else if d.month < 12 then ⟨d.year, d.month + 1, 1⟩
  else ⟨d.year + 1, 1, 1⟩

/-! ### Field extraction (lines 52–63 of `calendar_utils.py`) -/

/-- `event.get("summary", "Unnamed Event")` as rendered by the f-strings
(`str()` of the stored value; the default only applies when the key is
absent). -/
def extractSummary (e : EventDescriptor) : String :=
  pystr (e.summary.getD (.str "Unnamed Event"))

/-- `event.get("start_date", "none")`. -/
def rawStartDate (e : EventDescriptor) : PyVal :=
  e.start_date.getD (.str "none")

/-- `(event.get("end_date") or start_date).strip()` — raises
AttributeError when both `end_date` and `start_date` are falsy nulls. -/
def extractEndDate (e : EventDescriptor) : StripResult :=
  pyStrip (pyOr e.end_date (rawStartDate e))

/-- `(event.get("start_time") or "").strip()` (always a string thanks to
the `or ""`). -/
def extractStartTime (e : EventDescriptor) : String :=
  stripStr (pystr (pyOr e.start_time (.str "")))

/-- `(event.get("end_time") or "").strip()`. -/
def extractEndTime (e : EventDescriptor) : String :=
  stripStr (pystr (pyOr e.end_time (.str "")))

/-- Lines 60, 71–72: `timezone = event.get("timezone", "none")`, replaced
by the injected local timezone's key when `str(timezone).lower()` is the
`"none"` sentinel, otherwise used as given. -/
def effectiveTz (ltz : String) (e : EventDescriptor) : String :=
  let tzv := e.timezone.getD (.str "none")
  if lowerStr (pystr tzv) = "none" then ltz else pystr tzv

/-! ### Per-event rendering (lines 77–135) -/

/-- Lines 122–132: the optional `RRULE:` line.  `freq` is the uppercased
`str()` of `recurrence.get("frequency", "none")`; only the three
recognized frequencies emit a line; `interval` defaults to 1; `;COUNT=` is
appended only when `count` is truthy (present and nonzero). -/
def rrulePart (rec : Option Recurrence) : String :=
  match rec with
  | some r =>
    let freq := upperStr (pystr (r.frequency.getD (.str "none")))
    let interval := r.interval.getD 1
    if freq = "DAILY" ∨ freq = "WEEKLY" ∨ freq = "MONTHLY" then
      "RRULE:FREQ=" ++ freq ++ ";INTERVAL=" ++ toString interval ++
        (match r.count with
         | some c => if c = 0 then "" else ";COUNT=" ++ toString c
         | Option.none => "") ++ "\n"
    else ""
  | Option.none => ""

/-- Lines 104–111: the all-day VEVENT fields (date-only `DTSTART`/`DTEND`,
no timezone qualifier; `dEnd` is already the exclusive end date). -/
def alldayBlock (summary : String) (d1 dEnd : Date) (loc desc : String) : String :=
  "BEGIN:VEVENT\n" ++
  "SUMMARY:" ++ summary ++ "\n" ++
  "DTSTART;VALUE=DATE:" ++ fmtDate d1 ++ "\n" ++
  "DTEND;VALUE=DATE:" ++ fmtDate dEnd ++ "\n" ++
  "LOCATION:" ++ loc ++ "\n" ++
  "DESCRIPTION:" ++ desc ++ "\n"

/-- Lines 113–120: the timed VEVENT fields, both markers qualified with
the effective timezone identifier. -/
def timedBlock (summary tzName : String) (d1 : Date) (t1 : Time)
    (d2 : Date) (t2 : Time) (loc desc : String) : String :=
  "BEGIN:VEVENT\n" ++
  "SUMMARY:" ++ summary ++ "\n" ++
  "DTSTART;TZID=" ++ tzName ++ ":" ++ fmtDateTime d1 t1 ++ "\n" ++
  "DTEND;TZID=" ++ tzName ++ ":" ++ fmtDateTime d2 t2 ++ "\n" ++
  "LOCATION:" ++ loc ++ "\n" ++
  "DESCRIPTION:" ++ desc ++ "\n"

/-- Lines 77–134: the `try` block building the datetime objects, followed
by block composition.  `strptime` failure is the caught ValueError (skip);
`date + timedelta(days=1)` at 9999-12-31 raises OverflowError, which the
`except ValueError` clause does not catch. -/
def buildEvent (summary sd ed st et tzName loc desc : String)
    (rec : Option Recurrence) : Except GenError EventResult :=
  if st = "" then
    match parseDate sd, parseDate ed with
    | some d1, some d2 =>
      if d2.year = 9999 ∧ d2.month = 12 ∧ d2.day = 31 then
        .error .overflowError
      else
        .ok (.block (alldayBlock summary d1 (nextDay d2) loc desc ++
          rrulePart rec ++ "END:VEVENT\n"))
    | _, _ => .ok (.skippedInvalidDate summary)
  else
    match parseDateTime (sd ++ " " ++ st),
        parseDateTime (ed ++ " " ++ (if et = "" then st else et)) with
    | some (d1, t1), some (d2, t2) =>
      .ok (.block (timedBlock summary tzName d1 t1 d2 t2 loc desc ++
        rrulePart rec ++ "END:VEVENT\n"))
    | _, _ => .ok (.skippedInvalidDate summary)

/-- One iteration of the loop over `events` (lines 50–135): field
extraction (where line 55's `.strip()` may raise AttributeError), the
missing-start-date skip, timezone resolution (`pytz.timezone` raises
UnknownTimeZoneError for identifiers outside the database `tzdb`), and the
datetime/compose phase. -/
def processEvent (tzdb : String → Bool) (ltz : String)
    (event : EventDescriptor) : Except GenError EventResult :=
  match extractEndDate event with
  | .attributeError => .error .attributeError
  | .ok end_date =>
    if lowerStr (pystr (rawStartDate event)) = "none" then
      .ok (.skippedMissingStart (extractSummary event))
    else
      if tzdb (effectiveTz ltz event) then
        buildEvent (extractSummary event) (pystr (rawStartDate event))
          end_date (extractStartTime event) (extractEndTime event)
          (effectiveTz ltz event)
          (pystr (event.location.getD (.str "")))
          (pystr (event.description.getD (.str ""))) event.recurrence
      else
        .error (.unknownTimeZone (effectiveTz ltz event))

/-- The loop over all descriptors, concatenating the rendered blocks in
input order; the first uncaught exception aborts the run. -/
def processEvents (tzdb : String → Bool) (ltz : String) :
    List EventDescriptor → Except GenError String
  | [] => .ok ""
  | e :: rest =>
    match processEvent tzdb ltz e with
    | .error err => .error err
    | .ok r =>
      match processEvents tzdb ltz rest with
      | .error err => .error err
      | .ok restS =>
        match r with
        | .block b => .ok (b ++ restS)
        | _ => .ok restS

/-- Lines 41–46: the fixed VCALENDAR header. -/
def header : String :=
  "BEGIN:VCALENDAR\n" ++
  "VERSION:2.0\n" ++
  "PRODID:-//Custom Calendar//NONSGML v1.0//EN\n" ++
  "CALSCALE:GREGORIAN\n"

/-- Lines 34–35: unwrap the `"events"` field when the argument is a dict
carrying one. -/
def unwrapEvents : InputVal → InputVal
  | .dictVal (some v) => v
  | v => v

/-- `generate_ics` restricted to its observable product: the ICS document
string written to the file (parameterized by the timezone database and
the injected local timezone key).  A raised exception means no document is
produced at all. -/
def generate_ics (tzdb : String → Bool) (ltz : String)
    (input : InputVal) : Except GenError String :=
  match unwrapEvents input with
  | .listVal es =>
    match processEvents tzdb ltz es with
    | .error err => .error err
    | .ok body => .ok (header ++ body ++ "END:VCALENDAR")
  | _ => .error .typeError

/-- The block rendered for a descriptor, when it yields one. -/
def blockOf (tzdb : String → Bool) (ltz : String)
    (e : EventDescriptor) : Option String :=
  match processEvent tzdb ltz e with
  | .ok (.block b) => some b
  | _ => Option.none

/-- Concatenation of rendered blocks in order. -/
def concatBlocks (l : List String) : String :=
  l.foldr (fun a b => a ++ b) ""

/-- Shapes accepted by the input-unwrapping logic: a list of descriptors,
or a dict whose `"events"` key holds such a list. -/
def goodShape : InputVal → Bool
  | .listVal _ => true
  | .dictVal (some (.listVal _)) => true
  | _ => false

/-! ### Helper lemmas -/

@[simp] theorem strAppendAssoc : ∀ (a b c : String), a ++ b ++ c = a ++ (b ++ c)
  | ⟨a⟩, ⟨b⟩, ⟨c⟩ => congrArg String.mk (List.append_assoc a b c)

/-- When `start_date` extracted to a string, the end-date defaulting
expression never hits `None.strip()`. -/
theorem extractEndDate_ok (e : EventDescriptor) (sd : String)
    (h : rawStartDate e = .str sd) :
    ∃ x, extractEndDate e = StripResult.ok x := by
  unfold extractEndDate pyOr
  rw [h]
  cases he : e.end_date with
  | none => exact ⟨stripStr sd, rfl⟩
  | some v =>
    cases v with
    | none => exact ⟨stripStr sd, rfl⟩
    | str t =>
      by_cases ht : t = "" <;> simp [truthy, ht, pyStrip]

@[simp] theorem strAppendEmpty : ∀ (a : String), a ++ "" = a
  | ⟨l⟩ => congrArg String.mk (List.append_nil l)

@[simp] theorem strEmptyAppend : ∀ (a : String), "" ++ a = a
  | ⟨_⟩ => rfl

/-- Every emitted VEVENT block opens with the summary line and closes with
the optional recurrence line followed by `END:VEVENT`. -/
theorem processEvent_block_shape (tzdb : String → Bool) (ltz : String)
    (e : EventDescriptor) (b : String)
    (h : processEvent tzdb ltz e = .ok (.block b)) :
    ∃ tail, b = "BEGIN:VEVENT\n" ++ ("SUMMARY:" ++ (extractSummary e ++
      ("\n" ++ (tail ++ (rrulePart e.recurrence ++ "END:VEVENT\n"))))) := by
  unfold processEvent at h
  split at h
  · exact absurd h (by simp)
  · split at h
    · exact absurd h (by simp)
    · split at h
      · unfold buildEvent at h
        split at h
        · split at h
          · split at h
            · exact absurd h (by simp)
            · rename_i d1 d2 hq1 hq2 hov
              have hb := (EventResult.block.inj (Except.ok.inj h)).symm
              refine ⟨"DTSTART;VALUE=DATE:" ++ fmtDate d1 ++ "\n" ++
                "DTEND;VALUE=DATE:" ++ fmtDate (nextDay d2) ++ "\n" ++
                "LOCATION:" ++ pystr (e.location.getD (.str "")) ++ "\n" ++
                "DESCRIPTION:" ++ pystr (e.description.getD (.str "")) ++ "\n", ?_⟩
              rw [hb]
              simp only [alldayBlock, strAppendAssoc]
          · exact absurd h (by simp)
        · split at h
          · rename_i d1 t1 d2 t2 hq1 hq2
            have hb := (EventResult.block.inj (Except.ok.inj h)).symm
            refine ⟨"DTSTART;TZID=" ++ effectiveTz ltz e ++ ":" ++ fmtDateTime d1 t1 ++ "\n" ++
              "DTEND;TZID=" ++ effectiveTz ltz e ++ ":" ++ fmtDateTime d2 t2 ++ "\n" ++
              "LOCATION:" ++ pystr (e.location.getD (.str "")) ++ "\n" ++
              "DESCRIPTION:" ++ pystr (e.description.getD (.str "")) ++ "\n", ?_⟩
            rw [hb]
            simp only [timedBlock, strAppendAssoc]
          · exact absurd h (by simp)
      · exact absurd h (by simp)

/-! ### Claims -/

/-- C1: a descriptor whose extracted `start_time` is empty goes through
the all-day branch: the block's `DTSTART`/`DTEND` are date-only
(`DTSTART;VALUE=DATE:`/`DTEND;VALUE=DATE:` with `YYYYMMDD` values, no
timezone qualifier, per `alldayBlock` and `fmtDate`), `DTSTART` renders
the parsed `start_date` and `DTEND` renders the parsed `end_date` plus one
day (exclusive end); since an absent `end_date` defaults to `start_date`,
a single-day event emits `DTEND` = `start_date` + 1 day (see the witness). -/
theorem allday_exclusive_end (tzdb : String → Bool) (ltz : String)
    (e : EventDescriptor) (sd ed : String) (d1 d2 : Date)
    (hsd : rawStartDate e = .str sd) (hns : lowerStr sd ≠ "none")
    (hed : extractEndDate e = .ok ed) (hst : extractStartTime e = "")
    (htz : tzdb (effectiveTz ltz e) = true)
    (h1 : parseDate sd = some d1) (h2 : parseDate ed = some d2)
    (hov : ¬(d2.year = 9999 ∧ d2.month = 12 ∧ d2.day = 31)) :
    processEvent tzdb ltz e = .ok (.block
      (alldayBlock (extractSummary e) d1 (nextDay d2)
          (pystr (e.location.getD (.str "")))
          (pystr (e.description.getD (.str ""))) ++
        rrulePart e.recurrence ++ "END:VEVENT\n")) := by
  unfold processEvent buildEvent
  rw [hed, hsd, hst]
  simp [pystr, hns, htz, h1, h2, hov]

/-- C2 counterexample: `start_time="10:00"`, `end_time` absent, but
`end_date="2025-03-11"` differs from `start_date="2025-03-10"`: the two
markers render different `YYYYMMDDTHHMMSS` timestamps (the event is one
day long, not zero-duration), refuting the claim as stated. -/
theorem timed_zero_duration_cex :
    processEvent (fun _ => true) "UTC"
        { start_date := some (.str "2025-03-10"),
          end_date := some (.str "2025-03-11"),
          start_time := some (.str "10:00") } =
      .ok (.block ("BEGIN:VEVENT\nSUMMARY:Unnamed Event\n" ++
        "DTSTART;TZID=UTC:20250310T100000\n" ++
        "DTEND;TZID=UTC:20250311T100000\n" ++
        "LOCATION:\nDESCRIPTION:\nEND:VEVENT\n")) ∧
    ("20250310T100000" : String) ≠ "20250311T100000" :=
  ⟨rfl, by decide⟩

/-- C2 amended: when additionally the extracted (defaulted, stripped)
`end_date` equals the `start_date` string, an event with non-empty
`start_time` and empty/absent `end_time` gets `end_time` defaulted to
`start_time`, and the timed block renders the one timestamp
`fmtDateTime d t` in both `DTSTART;TZID=` and `DTEND;TZID=` markers
(zero duration, both qualified with the effective timezone). -/
theorem timed_zero_duration (tzdb : String → Bool) (ltz : String)
    (e : EventDescriptor) (sd st : String) (d : Date) (t : Time)
    (hsd : rawStartDate e = .str sd) (hns : lowerStr sd ≠ "none")
    (hed : extractEndDate e = .ok sd)
    (hst : extractStartTime e = st) (hstne : st ≠ "")
    (het : extractEndTime e = "")
    (htz : tzdb (effectiveTz ltz e) = true)
    (hp : parseDateTime (sd ++ " " ++ st) = some (d, t)) :
    processEvent tzdb ltz e = .ok (.block
      (timedBlock (extractSummary e) (effectiveTz ltz e) d t d t
          (pystr (e.location.getD (.str "")))
          (pystr (e.description.getD (.str ""))) ++
        rrulePart e.recurrence ++ "END:VEVENT\n")) := by
  have hp2 : parseDateTime (sd ++ (" " ++ st)) = some (d, t) := by
    rw [← strAppendAssoc]; exact hp
  unfold processEvent buildEvent
  rw [hed, hsd, hst, het]
  simp [pystr, hns, htz, hstne, hp2]

/-- C2 witness: `start_time="10:00"`, `end_time=""` → both markers render
`20250310T100000`. -/
theorem timed_zero_duration_witness :
    processEvent (fun _ => true) "UTC"
        { start_date := some (.str "2025-03-10"),
          start_time := some (.str "10:00"),
          end_time := some (.str "") } =
      .ok (.block ("BEGIN:VEVENT\nSUMMARY:Unnamed Event\n" ++
        "DTSTART;TZID=UTC:20250310T100000\n" ++
        "DTEND;TZID=UTC:20250310T100000\n" ++
        "LOCATION:\nDESCRIPTION:\nEND:VEVENT\n")) := by
  have h := timed_zero_duration (fun _ => true) "UTC"
    { start_date := some (.str "2025-03-10"),
      start_time := some (.str "10:00"), end_time := some (.str "") }
    "2025-03-10" "10:00" ⟨2025, 3, 10⟩ ⟨10, 0⟩
    rfl (by decide) rfl rfl (by decide) rfl rfl rfl
  exact h

/-- C3: an event whose `start_date` is the string sentinel `"none"` in any
letter case is skipped with the missing-start-date diagnostic, contributes
no block, and processing continues with the rest; and every successfully
produced document starts with the fixed VCALENDAR header and ends with the
`END:VCALENDAR` footer (in particular with zero events). -/
theorem sentinel_skip_wellformed :
    (∀ (tzdb : String → Bool) (ltz : String) (e : EventDescriptor)
        (sd : String), rawStartDate e = .str sd → lowerStr sd = "none" →
        processEvent tzdb ltz e = .ok (.skippedMissingStart (extractSummary e))) ∧
    (∀ (tzdb : String → Bool) (ltz : String) (e : EventDescriptor)
        (sd : String) (rest : List EventDescriptor),
        rawStartDate e = .str sd → lowerStr sd = "none" →
        processEvents tzdb ltz (e :: rest) = processEvents tzdb ltz rest) ∧
    (∀ (tzdb : String → Bool) (ltz : String) (input : InputVal) (doc : String),
        generate_ics tzdb ltz input = .ok doc →
        ∃ mid, doc = header ++ mid ++ "END:VCALENDAR") := by
  have p1 : ∀ (tzdb : String → Bool) (ltz : String) (e : EventDescriptor)
      (sd : String), rawStartDate e = .str sd → lowerStr sd = "none" →
      processEvent tzdb ltz e = .ok (.skippedMissingStart (extractSummary e)) := by
    intro tzdb ltz e sd hsd hlow
    obtain ⟨x, hx⟩ := extractEndDate_ok e sd hsd
    unfold processEvent
    rw [hx, hsd]
    simp [pystr, hlow]
  refine ⟨p1, ?_, ?_⟩
  · intro tzdb ltz e sd rest hsd hlow
    conv_lhs => rw [processEvents]
    rw [p1 tzdb ltz e sd hsd hlow]
    cases hr : processEvents tzdb ltz rest with
    | error err => rfl
    | ok restS => rfl
  · intro tzdb ltz input doc h
    unfold generate_ics at h
    split at h
    · split at h
      · exact absurd h (by simp)
      · exact ⟨_, (Except.ok.inj h).symm⟩
    · exact absurd h (by simp)

/-- C3 witness: a `"NoNe"` start date is skipped; the empty batch still
yields header + footer. -/
theorem sentinel_skip_wellformed_witness :
    processEvent (fun _ => true) "UTC"
        { summary := some (.str "Party"), start_date := some (.str "NoNe") } =
      .ok (.skippedMissingStart "Party") ∧
    (∃ mid, ("BEGIN:VCALENDAR\nVERSION:2.0\n" ++
        "PRODID:-//Custom Calendar//NONSGML v1.0//EN\nCALSCALE:GREGORIAN\n" ++
        "END:VCALENDAR" : String) = header ++ mid ++ "END:VCALENDAR") := by
  constructor
  · exact sentinel_skip_wellformed.1 (fun _ => true) "UTC"
      { summary := some (.str "Party"), start_date := some (.str "NoNe") }
      "NoNe" rfl (by decide)
  · exact sentinel_skip_wellformed.2.2 (fun _ => true) "UTC" (.listVal []) _ rfl

/-- C1 witness: `start_date="2025-03-10"`, `end_date` absent, no time →
`DTSTART=20250310`, `DTEND=20250311`. -/
theorem allday_exclusive_end_witness :
    processEvent (fun _ => true) "UTC"
        { start_date := some (.str "2025-03-10") } =
      .ok (.block ("BEGIN:VEVENT\nSUMMARY:Unnamed Event\n" ++
        "DTSTART;VALUE=DATE:20250310\nDTEND;VALUE=DATE:20250311\n" ++
        "LOCATION:\nDESCRIPTION:\nEND:VEVENT\n")) := by
  have h := allday_exclusive_end (fun _ => true) "UTC"
    { start_date := some (.str "2025-03-10") }
    "2025-03-10" "2025-03-10" ⟨2025, 3, 10⟩ ⟨2025, 3, 10⟩
    rfl (by decide) rfl rfl rfl rfl rfl (by decide)
  exact h

/-- C4 counterexample: a recurrence with recognized frequency and a
*present* count of 0 emits `RRULE:FREQ=DAILY;INTERVAL=2` with no
`;COUNT=` segment (the source guards with Python truthiness `if count:`),
refuting "appended exactly when a count is present". -/
theorem rrule_count_cex :
    processEvent (fun _ => true) "UTC"
        { start_date := some (.str "2025-03-10"),
          recurrence := some { frequency := some (.str "daily"),
                               interval := some 2, count := some 0 } } =
      .ok (.block ("BEGIN:VEVENT\nSUMMARY:Unnamed Event\n" ++
        "DTSTART;VALUE=DATE:20250310\nDTEND;VALUE=DATE:20250311\n" ++
        "LOCATION:\nDESCRIPTION:\n" ++
        "RRULE:FREQ=DAILY;INTERVAL=2\nEND:VEVENT\n")) ∧
    ({ frequency := some (.str "daily"), interval := some 2,
       count := some 0 } : Recurrence).count = some 0 ∧
    ("BEGIN:VEVENT\nSUMMARY:Unnamed Event\n" ++
        "DTSTART;VALUE=DATE:20250310\nDTEND;VALUE=DATE:20250311\n" ++
        "LOCATION:\nDESCRIPTION:\n" ++
        "RRULE:FREQ=DAILY;INTERVAL=2\nEND:VEVENT\n" : String) ≠
      ("BEGIN:VEVENT\nSUMMARY:Unnamed Event\n" ++
        "DTSTART;VALUE=DATE:20250310\nDTEND;VALUE=DATE:20250311\n" ++
        "LOCATION:\nDESCRIPTION:\n" ++
        "RRULE:FREQ=DAILY;INTERVAL=2;COUNT=0\nEND:VEVENT\n") :=
  ⟨rfl, rfl, by decide⟩

/-- C4 amended: every emitted block ends with the recurrence segment and
`END:VEVENT`; a recurrence whose frequency matches daily/weekly/monthly
case-insensitively yields the single line
`FREQ=<uppercased>;INTERVAL=<interval, default 1>` with `;COUNT=<count>`
appended exactly when a count is present *and nonzero* (Python truthiness);
an unrecognized frequency emits no recurrence line and leaves the event's
processing identical to one with no recurrence at all. -/
theorem rrule_encoding :
    (∀ (tzdb : String → Bool) (ltz : String) (e : EventDescriptor)
        (b : String), processEvent tzdb ltz e = .ok (.block b) →
        ∃ core, b = core ++ (rrulePart e.recurrence ++ "END:VEVENT\n")) ∧
    (∀ (r : Recurrence) (f : String), r.frequency = some (.str f) →
        (upperStr f = "DAILY" ∨ upperStr f = "WEEKLY" ∨ upperStr f = "MONTHLY") →
        ((∀ c : Int, r.count = some c → c ≠ 0 →
            rrulePart (some r) = "RRULE:FREQ=" ++ upperStr f ++ ";INTERVAL=" ++
              toString (r.interval.getD 1) ++ ";COUNT=" ++ toString c ++ "\n") ∧
          (r.count = Option.none ∨ r.count = some 0 →
            rrulePart (some r) = "RRULE:FREQ=" ++ upperStr f ++ ";INTERVAL=" ++
              toString (r.interval.getD 1) ++ "\n"))) ∧
    (∀ (tzdb : String → Bool) (ltz : String) (e : EventDescriptor)
        (r : Recurrence),
        ¬(upperStr (pystr (r.frequency.getD (.str "none"))) = "DAILY" ∨
          upperStr (pystr (r.frequency.getD (.str "none"))) = "WEEKLY" ∨
          upperStr (pystr (r.frequency.getD (.str "none"))) = "MONTHLY") →
        processEvent tzdb ltz { e with recurrence := some r } =
          processEvent tzdb ltz { e with recurrence := Option.none }) := by
  refine ⟨?_, ?_, ?_⟩
  · intro tzdb ltz e b h
    obtain ⟨tail, ht⟩ := processEvent_block_shape tzdb ltz e b h
    refine ⟨"BEGIN:VEVENT\n" ++ ("SUMMARY:" ++ (extractSummary e ++ ("\n" ++ tail))), ?_⟩
    rw [ht]
    simp only [strAppendAssoc]
  · intro r f hf hfreq
    have hfr : upperStr (pystr (r.frequency.getD (.str "none"))) = upperStr f := by
      rw [hf]
      rfl
    constructor
    · intro c hc hcne
      simp only [rrulePart, hfr]
      rw [if_pos hfreq, hc]
      dsimp only
      rw [if_neg hcne]
      simp only [strAppendAssoc]
    · intro hc
      simp only [rrulePart, hfr]
      rw [if_pos hfreq]
      rcases hc with hc | hc <;> rw [hc] <;> simp
  · intro tzdb ltz e r hf
    have hrr : rrulePart (some r) = "" := by
      simp only [rrulePart]
      rw [if_neg hf]
    have hrn : rrulePart Option.none = "" := rfl
    simp only [processEvent, buildEvent, extractSummary, rawStartDate,
      extractEndDate, extractStartTime, extractEndTime, effectiveTz,
      hrr, hrn]

/-- C4 witness: `{frequency:"daily", interval:2, count:5}` renders
`RRULE:FREQ=DAILY;INTERVAL=2;COUNT=5`, and a `"yearly"` recurrence
processes exactly like no recurrence. -/
theorem rrule_encoding_witness :
    rrulePart (some { frequency := some (.str "daily"), interval := some 2,
                      count := some 5 }) = "RRULE:FREQ=DAILY;INTERVAL=2;COUNT=5\n" ∧
    processEvent (fun _ => true) "UTC"
        { start_date := some (.str "2025-03-10"),
          recurrence := some { frequency := some (.str "yearly"),
                               interval := some 2, count := some 5 } } =
      processEvent (fun _ => true) "UTC"
        { start_date := some (.str "2025-03-10"),
          recurrence := Option.none } := by
  constructor
  · exact (rrule_encoding.2.1
      { frequency := some (.str "daily"), interval := some 2, count := some 5 }
      "daily" rfl (by decide)).1 5 rfl (by decide)
  · exact rrule_encoding.2.2 (fun _ => true) "UTC"
      { start_date := some (.str "2025-03-10") }
      { frequency := some (.str "yearly"), interval := some 2, count := some 5 }
      (by decide)

/-- The loop's result under no fatal exception: the concatenation, in
input order, of the blocks of exactly those events that produce one. -/
theorem processEvents_concat (tzdb : String → Bool) (ltz : String) :
    ∀ es : List EventDescriptor,
    (∀ e ∈ es, ∃ r, processEvent tzdb ltz e = .ok r) →
    processEvents tzdb ltz es =
      .ok (concatBlocks (es.filterMap (blockOf tzdb ltz))) := by
  intro es
  induction es with
  | nil => intro _; rfl
  | cons e rest ih =>
    intro h
    obtain ⟨r, hr⟩ := h e (List.mem_cons_self _ _)
    have hrest := ih (fun x hx => h x (List.mem_cons_of_mem _ hx))
    conv_lhs => rw [processEvents]
    rw [hr, hrest]
    cases r with
    | block b => simp [blockOf, hr, concatBlocks]
    | skippedMissingStart s => simp [blockOf, hr, concatBlocks]
    | skippedInvalidDate s => simp [blockOf, hr, concatBlocks]

/-- C5: when no event raises a fatal exception, the document is the header,
then the blocks of exactly the block-producing events in input order
(skipped events — e.g. date-parse failures — contribute nothing and leave
every other block intact), then the footer.  The witness instantiates the
A/B/C scenario with B failing to parse. -/
theorem order_skip_preservation (tzdb : String → Bool) (ltz : String)
    (es : List EventDescriptor)
    (h : ∀ e ∈ es, ∃ r, processEvent tzdb ltz e = .ok r) :
    generate_ics tzdb ltz (.listVal es) =
      .ok (header ++ concatBlocks (es.filterMap (blockOf tzdb ltz)) ++
        "END:VCALENDAR") := by
  unfold generate_ics
  dsimp only [unwrapEvents]
  rw [processEvents_concat tzdb ltz es h]

set_option maxRecDepth 8000 in
/-- C5 witness: descriptors A, B, C in order with B's date unparsable
(`2025-13-01`): exactly A's and C's blocks appear, in that order. -/
theorem order_skip_preservation_witness :
    generate_ics (fun _ => true) "UTC" (.listVal
        [{ summary := some (.str "A"), start_date := some (.str "2025-03-10") },
         { summary := some (.str "B"), start_date := some (.str "2025-13-01") },
         { summary := some (.str "C"), start_date := some (.str "2025-03-12") }]) =
      .ok ("BEGIN:VCALENDAR\nVERSION:2.0\n" ++
        "PRODID:-//Custom Calendar//NONSGML v1.0//EN\nCALSCALE:GREGORIAN\n" ++
        "BEGIN:VEVENT\nSUMMARY:A\nDTSTART;VALUE=DATE:20250310\n" ++
        "DTEND;VALUE=DATE:20250311\nLOCATION:\nDESCRIPTION:\nEND:VEVENT\n" ++
        "BEGIN:VEVENT\nSUMMARY:C\nDTSTART;VALUE=DATE:20250312\n" ++
        "DTEND;VALUE=DATE:20250313\nLOCATION:\nDESCRIPTION:\nEND:VEVENT\n" ++
        "END:VCALENDAR") := by
  have hmem : ∀ e ∈
      [({ summary := some (.str "A"), start_date := some (.str "2025-03-10") } : EventDescriptor),
       { summary := some (.str "B"), start_date := some (.str "2025-13-01") },
       { summary := some (.str "C"), start_date := some (.str "2025-03-12") }],
      ∃ r, processEvent (fun _ => true) "UTC" e = .ok r := by
    intro e he
    simp only [List.mem_cons, List.not_mem_nil, or_false] at he
    rcases he with rfl | rfl | rfl
    · exact ⟨_, rfl⟩
    · exact ⟨_, rfl⟩
    · exact ⟨_, rfl⟩
  exact order_skip_preservation (fun _ => true) "UTC" _ hmem

/-- C6 counterexample: a *present but empty* summary is kept empty — the
source's `event.get("summary", "Unnamed Event")` only defaults on an
absent key — so the block renders `SUMMARY:` with no text, refuting
"placeholder whenever the summary field is absent or is the empty
string". -/
theorem summary_empty_cex :
    extractSummary { summary := some (.str ""),
                     start_date := some (.str "2025-03-10") } = "" ∧
    processEvent (fun _ => true) "UTC"
        { summary := some (.str ""), start_date := some (.str "2025-03-10") } =
      .ok (.block ("BEGIN:VEVENT\nSUMMARY:\n" ++
        "DTSTART;VALUE=DATE:20250310\nDTEND;VALUE=DATE:20250311\n" ++
        "LOCATION:\nDESCRIPTION:\nEND:VEVENT\n")) ∧
    ("" : String) ≠ "Unnamed Event" :=
  ⟨rfl, rfl, by decide⟩

/-- C6 amended: the extracted summary is the placeholder exactly when the
`summary` key is absent; when the key is present its (`str()`-rendered)
value is used even if empty, and the emitted block's summary line carries
that extracted summary. -/
theorem summary_default :
    (∀ e : EventDescriptor, e.summary = Option.none →
        extractSummary e = "Unnamed Event") ∧
    (∀ (e : EventDescriptor) (v : PyVal), e.summary = some v →
        extractSummary e = pystr v) ∧
    (∀ (tzdb : String → Bool) (ltz : String) (e : EventDescriptor)
        (b : String), processEvent tzdb ltz e = .ok (.block b) →
        ∃ tail, b = "BEGIN:VEVENT\n" ++ ("SUMMARY:" ++
          (extractSummary e ++ ("\n" ++ tail)))) := by
  refine ⟨?_, ?_, ?_⟩
  · intro e h
    unfold extractSummary
    rw [h]
    rfl
  · intro e v h
    unfold extractSummary
    rw [h]
    rfl
  · intro tzdb ltz e b h
    obtain ⟨tail, ht⟩ := processEvent_block_shape tzdb ltz e b h
    exact ⟨tail ++ (rrulePart e.recurrence ++ "END:VEVENT\n"), by rw [ht]⟩

/-- C6 witness: an absent summary renders the placeholder; a present empty
one renders empty. -/
theorem summary_default_witness :
    extractSummary { start_date := some (.str "2025-03-10") } = "Unnamed Event" ∧
    extractSummary { summary := some (.str "Standup"),
                     start_date := some (.str "2025-03-10") } = "Standup" :=
  ⟨summary_default.1 { start_date := some (.str "2025-03-10") } rfl,
   summary_default.2.1 { summary := some (.str "Standup"),
                         start_date := some (.str "2025-03-10") } (.str "Standup") rfl⟩

/-- C7: an input that is neither a descriptor list nor a dict carrying one
under `"events"` raises TypeError before any event is processed — the
`Except.error` result is the whole output, so no partial document exists —
while a dict with an `"events"` list is processed exactly like the bare
list. -/
theorem input_shape :
    (∀ (tzdb : String → Bool) (ltz : String) (input : InputVal),
        goodShape input = false →
        generate_ics tzdb ltz input = .error .typeError) ∧
    (∀ (tzdb : String → Bool) (ltz : String) (es : List EventDescriptor),
        generate_ics tzdb ltz (.dictVal (some (.listVal es))) =
          generate_ics tzdb ltz (.listVal es)) := by
  constructor
  · intro tzdb ltz input hbad
    cases input with
    | listVal es => simp [goodShape] at hbad
    | otherVal => rfl
    | dictVal o =>
      cases o with
      | none => rfl
      | some v =>
        cases v with
        | listVal es => simp [goodShape] at hbad
        | dictVal o2 => rfl
        | otherVal => rfl
  · intro tzdb ltz es
    rfl

/-- C7 witness: a non-list, non-dict argument raises TypeError; wrapping a
list under `"events"` changes nothing. -/
theorem input_shape_witness :
    generate_ics (fun _ => true) "UTC" .otherVal = .error .typeError ∧
    generate_ics (fun _ => true) "UTC"
        (.dictVal (some (.listVal [{ start_date := some (.str "2025-03-10") }]))) =
      generate_ics (fun _ => true) "UTC"
        (.listVal [{ start_date := some (.str "2025-03-10") }]) :=
  ⟨input_shape.1 (fun _ => true) "UTC" .otherVal rfl,
   input_shape.2 (fun _ => true) "UTC" _⟩

/-- C8: the engine is deterministic — the document is a pure function of
the descriptors, the timezone database and the injected local timezone;
two runs on the same input produce byte-identical documents (the embedding
has no clock or randomness parameter because the source reads neither). -/
theorem deterministic_output (tzdb : String → Bool) (ltz : String)
    (input : InputVal) (d1 d2 : String)
    (h1 : generate_ics tzdb ltz input = .ok d1)
    (h2 : generate_ics tzdb ltz input = .ok d2) : d1 = d2 := by
  rw [h1] at h2
  exact Except.ok.inj h2

/-- C8 witness: two runs on the empty batch yield the identical document. -/
theorem deterministic_output_witness :
    generate_ics (fun _ => true) "UTC" (.listVal []) =
      .ok ("BEGIN:VCALENDAR\nVERSION:2.0\n" ++
        "PRODID:-//Custom Calendar//NONSGML v1.0//EN\nCALSCALE:GREGORIAN\n" ++
        "END:VCALENDAR") ∧
    ("BEGIN:VCALENDAR\nVERSION:2.0\n" ++
        "PRODID:-//Custom Calendar//NONSGML v1.0//EN\nCALSCALE:GREGORIAN\n" ++
        "END:VCALENDAR" : String) =
      ("BEGIN:VCALENDAR\nVERSION:2.0\n" ++
        "PRODID:-//Custom Calendar//NONSGML v1.0//EN\nCALSCALE:GREGORIAN\n" ++
        "END:VCALENDAR") :=
  ⟨rfl, deterministic_output (fun _ => true) "UTC" (.listVal []) _ _ rfl rfl⟩

/-- C9: for any non-skipped descriptor (start_date a non-sentinel string),
an unresolvable effective timezone raises UnknownTimeZoneError and aborts
the whole run — no hypothesis is made on `start_time` or on the dates, so
this holds even for an all-day event (whose timezone the output would
never use) and even when its dates are malformed (the parse-and-skip phase
is never reached, as the witness shows). -/
theorem tz_resolution_fatal (tzdb : String → Bool) (ltz : String)
    (e : EventDescriptor) (sd : String) (rest : List EventDescriptor)
    (hsd : rawStartDate e = .str sd) (hns : lowerStr sd ≠ "none")
    (htz : tzdb (effectiveTz ltz e) = false) :
    processEvent tzdb ltz e = .error (.unknownTimeZone (effectiveTz ltz e)) ∧
    generate_ics tzdb ltz (.listVal (e :: rest)) =
      .error (.unknownTimeZone (effectiveTz ltz e)) := by
  obtain ⟨x, hx⟩ := extractEndDate_ok e sd hsd
  have hpe : processEvent tzdb ltz e =
      .error (.unknownTimeZone (effectiveTz ltz e)) := by
    unfold processEvent
    rw [hx, hsd]
    simp [pystr, hns, htz]
  have hev : processEvents tzdb ltz (e :: rest) =
      .error (.unknownTimeZone (effectiveTz ltz e)) := by
    conv_lhs => rw [processEvents]
    rw [hpe]
  refine ⟨hpe, ?_⟩
  unfold generate_ics
  dsimp only [unwrapEvents]
  rw [hev]

/-- C9 witness: an all-day event (`start_time` empty) with a malformed
start date and an unknown timezone still kills the entire run. -/
theorem tz_resolution_fatal_witness :
    generate_ics (fun _ => false) "UTC" (.listVal
        [{ start_date := some (.str "not-a-date"),
           start_time := some (.str ""),
           timezone := some (.str "Mars/Olympus") },
         { start_date := some (.str "2025-03-10") }]) =
      .error (.unknownTimeZone "Mars/Olympus") := by
  have h := tz_resolution_fatal (fun _ => false) "UTC"
    { start_date := some (.str "not-a-date"),
      start_time := some (.str ""),
      timezone := some (.str "Mars/Olympus") }
    "not-a-date" [{ start_date := some (.str "2025-03-10") }]
    rfl (by decide) rfl
  exact h.2

/-- C10 counterexample: a descriptor whose `start_date` is an actual null
and whose `end_date` is absent crashes at line 55's
`(event.get("end_date") or start_date).strip()` with AttributeError — an
uncaught fatal error, not the missing-start-date skip the claim
promises. -/
theorem null_start_cex :
    processEvent (fun _ => true) "UTC" { start_date := some PyVal.none } =
      .error .attributeError ∧
    (Except.error GenError.attributeError ≠
      (Except.ok (EventResult.skippedMissingStart "Unnamed Event") :
        Except GenError EventResult)) :=
  ⟨rfl, fun h => nomatch h⟩

/-- C10 amended: only when the descriptor's `end_date` is present and
truthy (a non-empty string) does the end-date defaulting avoid
`None.strip()`; then `str(None).lower() = "none"` makes a null
`start_date` hit the sentinel check and the event is skipped with the
missing-start-date diagnostic.  (With `end_date` absent/falsy the run
crashes instead, as the counterexample shows.) -/
theorem null_start_amended (tzdb : String → Bool) (ltz : String)
    (e : EventDescriptor) (t : String)
    (h0 : e.start_date = some PyVal.none)
    (h1 : e.end_date = some (.str t)) (h2 : t ≠ "") :
    processEvent tzdb ltz e = .ok (.skippedMissingStart (extractSummary e)) := by
  have hlow : lowerStr (pystr PyVal.none) = "none" := by decide
  have hed : extractEndDate e = .ok (stripStr t) := by
    unfold extractEndDate pyOr rawStartDate
    rw [h1]
    simp [truthy, h2, pyStrip]
  unfold processEvent
  rw [hed]
  unfold rawStartDate
  rw [h0]
  simp [hlow]

/-- C10 witness: null `start_date` with a truthy `end_date` is skipped
with the missing-start-date diagnostic. -/
theorem null_start_amended_witness :
    processEvent (fun _ => true) "UTC"
        { summary := some (.str "X"), start_date := some PyVal.none,
          end_date := some (.str "2025-03-11") } =
      .ok (.skippedMissingStart "X") := by
  exact null_start_amended (fun _ => true) "UTC"
    { summary := some (.str "X"), start_date := some PyVal.none,
      end_date := some (.str "2025-03-11") }
    "2025-03-11" rfl rfl (by decide)

end CalendarEventExtractor
